import Mathlib

/-!
Verification development for the jama-mcp-server repository.

Shallow embedding of the Python modules under `src/jama_mcp_server`:
  * `utils/rate_limit.py`  — token-bucket rate limiter
  * `utils/errors.py`      — HTTP-status-to-exception mapping
  * `utils/json_patch.py`  — JSON Patch construction and validation
  * `utils/validation.py`  — parent-existence and duplicate-name checks
  * `client.py`            — OAuth token refresh in the client wrapper
  * `tools/write_tools.py` — create/update/batch tools and retry policies
  * `models/attachment.py` — attachment field validators

Real time (`time.time()`, `datetime.now()`) is modelled by explicit rational
timestamps, machine floats by rationals, Python exceptions by `Except` /
explicit error inductives, and the external JAMA REST API by environment
parameters providing the outcome of each delegated call.  The `tenacity`
retry decorators are embedded according to that library's documented
semantics (`stop_after_attempt`, `retry_if_exception_type`, `reraise`,
`RetryError`).
-/

namespace JamaMCP

/-! ### utils/rate_limit.py — token bucket rate limiter

`last_update` is represented implicitly: every refill receives the elapsed
time since the previous update as an explicit nonnegative rational, exactly
the quantity `now - self.last_update` computed by `_refill_tokens`.
-/

structure RateLimiter where
  rate : ℚ
  capacity : ℚ
  tokens : ℚ
  deriving Repr, DecidableEq

/-- `RateLimiter.__init__`: rate, capacity and tokens all start at
`requests_per_second`. -/
def RateLimiter.init (requests_per_second : ℚ) : RateLimiter :=
  { rate := requests_per_second
    capacity := requests_per_second
    tokens := requests_per_second }

/-- `RateLimiter._refill_tokens`: add `elapsed * rate` tokens, capped at
`capacity`. -/
def RateLimiter.refillTokens (s : RateLimiter) (elapsed : ℚ) : RateLimiter :=
  { s with tokens := min s.capacity (s.tokens + elapsed * s.rate) }

/-- `RateLimiter.try_acquire`: refill, then take `n` tokens if available,
returning whether they were taken. -/
def RateLimiter.tryAcquire (s : RateLimiter) (elapsed : ℚ) (n : ℕ) :
    RateLimiter × Bool :=
  let s1 := s.refillTokens elapsed
  if (n : ℚ) ≤ s1.tokens then
    ({ s1 with tokens := s1.tokens - (n : ℚ) }, true)
  else
    (s1, false)

/-- `RateLimiter.acquire`: the blocking loop, one list entry per iteration
(the elapsed time observed by that iteration's `_refill_tokens` call).
`some` is the state in which the call returned; `none` means the loop did
not return within the given iterations. -/
def RateLimiter.acquireLoop (s : RateLimiter) (n : ℕ) :
    List ℚ → Option RateLimiter
  | [] => none
  | e :: es =>
    let s1 := s.refillTokens e
    if (n : ℚ) ≤ s1.tokens then
      some { s1 with tokens := s1.tokens - (n : ℚ) }
    else
      s1.acquireLoop n es

/-- The token bucket invariant of the rate limiter. -/
def RateLimiter.Inv (s : RateLimiter) : Prop :=
  0 ≤ s.tokens ∧ s.tokens ≤ s.capacity ∧ s.capacity = s.rate

/-! ### utils/errors.py — exception taxonomy and HTTP status mapping

`JamaError` and its subclasses are represented by a single structure carrying
the subclass as an `ErrorKind`.  `handle_http_error` always passes a details
dict `{"status_code": ..., "response": ...}`; those two entries are the
`statusCode` and `response` fields. -/

inductive ErrorKind
  | base
  | validation
  | authentication
  | permission
  | notFound
  | conflict
  | rateLimit
  | server
  deriving Repr, DecidableEq

structure JamaError where
  kind : ErrorKind
  message : String
  statusCode : ℕ
  response : String
  deriving Repr, DecidableEq

/-- `handle_http_error`: map an HTTP status code and response text to the
corresponding exception.  The `error_map` dict lookup is embedded as the
chain of equality tests on the six mapped codes. -/
def handle_http_error (status_code : ℕ) (response_text : String) : JamaError :=
  if status_code = 400 then
    ⟨.validation, s!"HTTP {status_code}: {response_text}", status_code, response_text⟩
  else if status_code = 401 then
    ⟨.authentication, s!"HTTP {status_code}: {response_text}", status_code, response_text⟩
  else if status_code = 403 then
    ⟨.permission, s!"HTTP {status_code}: {response_text}", status_code, response_text⟩
  else if status_code = 404 then
    ⟨.notFound, s!"HTTP {status_code}: {response_text}", status_code, response_text⟩
  else if status_code = 409 then
    ⟨.conflict, s!"HTTP {status_code}: {response_text}", status_code, response_text⟩
  else if status_code = 429 then
    ⟨.rateLimit, s!"HTTP {status_code}: {response_text}", status_code, response_text⟩
  else if 500 ≤ status_code ∧ status_code < 600 then
    ⟨.server, s!"HTTP {status_code}: Server error - {response_text}",
      status_code, response_text⟩
  else
    ⟨.base, s!"HTTP {status_code}: Unexpected error - {response_text}",
      status_code, response_text⟩

/-! ### shared helper — Python's `sub in s` substring test -/

/-- `pat in s` for strings, via `splitOn`: `pat` occurs in `s` iff splitting
`s` on `pat` yields at least two pieces. -/
def strContains (s pat : String) : Bool :=
  decide (2 ≤ (s.splitOn pat).length)

/-! ### utils/json_patch.py — JSON Patch construction and validation

A patch operation dict is a record of the three keys the code reads; a
missing key is `none`.  Field values stay abstract in the type `V`. -/

structure PatchOp (V : Type) where
  op : Option String
  path : Option String
  value : Option V
  deriving Repr, DecidableEq

/-- The `required_ops` set of `validate_json_patch`. -/
def requiredOps : List String := ["replace", "add", "remove", "copy", "move", "test"]

/-- `path.startswith("/")`: the first character of the string is `/`. -/
def startsWithSlash (s : String) : Bool :=
  match s.data with
  | [] => false
  | c :: _ => c == '/'

/-- One entry of the list built by `fields_to_json_patch`. -/
def mkFieldPatch {V : Type} (field_name : String) (field_value : V) : PatchOp V :=
  { op := some "add"
    path := some ("/fields/" ++ field_name)
    value := some field_value }

def noFieldsMsg : String := "At least one field must be provided for update"

/-- `fields_to_json_patch`: one `add` operation per field, path
`/fields/<field name>`; raises ValueError on an empty dict.  The fields dict
is a key/value list. -/
def fields_to_json_patch {V : Type} (fields : List (String × V)) :
    Except String (List (PatchOp V)) :=
  if fields.isEmpty then
    .error noFieldsMsg
  else
    .ok (fields.map fun fv => mkFieldPatch fv.1 fv.2)

/-- The indexed per-patch checks of `validate_json_patch`. -/
def validatePatchList {V : Type} : ℕ → List (PatchOp V) → Except String Bool
  | _, [] => .ok true
  | i, p :: ps =>
    match p.op with
    | none => .error s!"Patch {i} missing required op field"
    | some op =>
      if op ∉ requiredOps then
        .error s!"Patch {i} has invalid op {op}"
      else
        match p.path with
        | none => .error s!"Patch {i} missing required path field"
        | some path =>
          if !startsWithSlash path then
            .error s!"Patch {i} path must start with / (JSON Pointer format)"
          else if op != "remove" && p.value.isNone then
            .error s!"Patch {i} with op={op} missing required value field"
          else
            validatePatchList (i + 1) ps

/-- `validate_json_patch`: empty-list check, then the per-patch checks. -/
def validate_json_patch {V : Type} (patches : List (PatchOp V)) : Except String Bool :=
  if patches.isEmpty then .error "Patches list cannot be empty"
  else validatePatchList 0 patches

/-! ### utils/validation.py — parent existence and duplicate-name checks -/

def parentNotFoundMsg (p : ℤ) : String := s!"Parent item {p} not found"

def parentPermissionMsg (p : ℤ) : String := s!"Permission denied for parent item {p}"

def parentUnableMsg (p : ℤ) (e : String) : String :=
  s!"Unable to validate parent item {p}: {e}"

/-- The `except` handler of `validate_parent_exists`: classify the caught
exception text and build the ValueError message. -/
def mapParentError (parent_id : ℤ) (e : String) : String :=
  if strContains e "404" || strContains e.toLower "not found" then
    parentNotFoundMsg parent_id
  else if strContains e "403" || strContains e.toLower "permission" then
    parentPermissionMsg parent_id
  else
    parentUnableMsg parent_id e

/-- `validate_parent_exists`: `lookup` is the outcome of the delegated
`jama_get_item` call, with `ok b` meaning it returned a value of truthiness
`b`.  The ValueError raised in the `try` body when the item is falsy is
caught by the same `except` handler, whose mapping is the identity on that
message (it contains "not found"), so that branch is embedded directly. -/
def validate_parent_exists (parent_id : ℤ) (lookup : Except String Bool) :
    Except String Unit :=
  match lookup with
  | .ok true => .ok ()
  | .ok false => .error (parentNotFoundMsg parent_id)
  | .error e => .error (mapParentError parent_id e)

/-- One element of the children list fetched by `check_duplicate_name`:
either not a dict, or a dict whose `fields.name` lookup gives the contained
optional string. -/
inductive ChildEntry
  | notDict
  | dict (name : Option String)
  deriving Repr, DecidableEq

/-- The truthy `fields.name` of a child, if any (the set comprehension keeps
a child only when it is a dict and its name is truthy, i.e. nonempty). -/
def childName : ChildEntry → Option String
  | .notDict => none
  | .dict none => none
  | .dict (some n) => if n = "" then none else some n

/-- `check_duplicate_name`: `childrenResult` is the outcome of the delegated
`get_item_children` call; any exception yields `False`, otherwise the result
is membership of `item_name` in the truthy child names. -/
def check_duplicate_name (childrenResult : Except String (List ChildEntry))
    (item_name : String) : Bool :=
  match childrenResult with
  | .error _ => false
  | .ok children => children.any fun c => childName c == some item_name

/-! ### tenacity retry decorator — embedded per its documented semantics

`stop_after_attempt n` allows at most `n` attempts; a raised exception whose
type is outside `retry_if_exception_type` propagates immediately; when the
stop condition halts retrying, the last exception is re-raised if
`reraise=True`, otherwise a `RetryError` wrapping it is raised. -/

inductive RetryResult (ε β : Type)
  | ok (b : β)
  | raised (e : ε)
  | retryExhausted (e : ε)
  deriving Repr, DecidableEq

/-- Attempt loop: `k` is the index of the current attempt, `rem` the number
of further attempts the stop condition still allows.  Returns the outcome
and the number of attempts made. -/
def retryGo {ε β : Type} (retryable : ε → Bool) (reraise : Bool)
    (att : ℕ → Except ε β) : ℕ → ℕ → RetryResult ε β × ℕ
  | k, rem =>
    match att k with
    | .ok b => (.ok b, k + 1)
    | .error e =>
      if retryable e then
        match rem with
        | 0 => if reraise then (.raised e, k + 1) else (.retryExhausted e, k + 1)
        | r + 1 => retryGo retryable reraise att (k + 1) r
      else (.raised e, k + 1)

/-- `@retry(stop=stop_after_attempt maxAttempts, retry=retry_if_exception_type
retryable, reraise)` applied to a body whose attempt outcomes are `att`. -/
def retryCall {ε β : Type} (maxAttempts : ℕ) (retryable : ε → Bool)
    (reraise : Bool) (att : ℕ → Except ε β) : RetryResult ε β × ℕ :=
  retryGo retryable reraise att 0 (maxAttempts - 1)

/-- `wait_fixed(2)` of the create retry decorator, in seconds. -/
def create_wait_seconds : ℚ := 2

/-- `wait_exponential(multiplier=1, min=1, max=10)` of the update retry
decorator: doubling waits clamped to [1, 10] seconds. -/
def update_wait_seconds (attempt_number : ℕ) : ℚ :=
  min 10 (max 1 ((2 : ℚ) ^ (attempt_number - 1)))

/-! ### client.py — OAuth token tracking and `_make_request`

Times are rationals in seconds.  `refreshOk` is whether re-creating the base
client succeeds; `hasTokenAttr` is whether the re-created client exposes the
private `__oauth_token` attribute inspected by `_update_token_expiry`. -/

/-- `TOKEN_REFRESH_THRESHOLD = timedelta(minutes=5)`, in seconds. -/
def TOKEN_REFRESH_THRESHOLD : ℚ := 5 * 60

/-- `timedelta(hours=1)`: the assumed token validity, in seconds. -/
def tokenValiditySeconds : ℚ := 3600

structure ClientState where
  oauth : Bool
  tokenExpiry : Option ℚ
  deriving Repr, DecidableEq

/-- `_update_token_expiry`: expiry is one hour from now when OAuth is on and
the token attribute is present, otherwise `None`. -/
def updateTokenExpiry (s : ClientState) (now : ℚ) (hasTokenAttr : Bool) :
    ClientState :=
  if s.oauth && hasTokenAttr then
    { s with tokenExpiry := some (now + tokenValiditySeconds) }
  else
    { s with tokenExpiry := none }

/-- `_ensure_valid_token`: refresh the client when less than
`TOKEN_REFRESH_THRESHOLD` remains; a failed refresh raises
AuthenticationError. -/
def ensureValidToken (s : ClientState) (now : ℚ) (refreshOk hasTokenAttr : Bool) :
    Except String ClientState :=
  if s.oauth = false then .ok s
  else
    match s.tokenExpiry with
    | none => .ok s
    | some expiry =>
      if expiry - now < TOKEN_REFRESH_THRESHOLD then
        if refreshOk then .ok (updateTokenExpiry s now hasTokenAttr)
        else .error "Failed to refresh OAuth token"
      else .ok s

inductive RequestOutcome (β : Type)
  | ok (b : β)
  | jamaErr (e : JamaError)
  | rawErr (msg : String)
  | authErr (msg : String)
  deriving Repr, DecidableEq

/-- The `except` handler of `_make_request`: classify the exception text and
convert to a `JamaError` via `handle_http_error`; `none` means the original
exception is re-raised. -/
def remapRequestError (msg : String) : Option JamaError :=
  if strContains msg "401" || strContains msg "Unauthorized" then
    some (handle_http_error 401 msg)
  else if strContains msg "403" || strContains msg "Forbidden" then
    some (handle_http_error 403 msg)
  else if strContains msg "404" || strContains msg "Not Found" then
    some (handle_http_error 404 msg)
  else if strContains msg "409" || strContains msg "Conflict" then
    some (handle_http_error 409 msg)
  else if strContains msg "429" || strContains msg "Too Many Requests" then
    some (handle_http_error 429 msg)
  else if strContains msg "500" then some (handle_http_error 500 msg)
  else if strContains msg "502" then some (handle_http_error 502 msg)
  else if strContains msg "503" then some (handle_http_error 503 msg)
  else if strContains msg "504" then some (handle_http_error 504 msg)
  else none

structure MakeRequestResult (β : Type) where
  outcome : RequestOutcome β
  /-- `some s` iff the wrapped client method was invoked, with `s` the
  client state at that moment. -/
  stateAtCall : Option ClientState
  deriving Repr, DecidableEq

/-- `_make_request`: acquire a rate-limit token (modelled separately by
`RateLimiter.acquireLoop`, which only mutates the limiter and never raises),
ensure the OAuth token is valid, then invoke the delegated method, whose
outcome is `call`. -/
def make_request {β : Type} (s : ClientState) (now : ℚ)
    (refreshOk hasTokenAttr : Bool) (call : Except String β) :
    MakeRequestResult β :=
  match ensureValidToken s now refreshOk hasTokenAttr with
  | .error m => { outcome := .authErr m, stateAtCall := none }
  | .ok s1 =>
    match call with
    | .ok b => { outcome := .ok b, stateAtCall := some s1 }
    | .error msg =>
      match remapRequestError msg with
      | some je => { outcome := .jamaErr je, stateAtCall := some s1 }
      | none => { outcome := .rawErr msg, stateAtCall := some s1 }

/-! ### tools/write_tools.py — create and update tools

Raw exceptions coming out of the delegated `py_jama_rest_client` calls. -/

inductive RawExc
  | timeout (msg : String)
  | connectionError (msg : String)
  | generic (msg : String)
  deriving Repr, DecidableEq

/-- `str(e)` of a raw exception. -/
def RawExc.str : RawExc → String
  | .timeout m => m
  | .connectionError m => m
  | .generic m => m

/-- `retry_if_exception_type((requests.exceptions.Timeout,
requests.exceptions.ConnectionError))` of the create retry decorator. -/
def RawExc.retryableCreate : RawExc → Bool
  | .timeout _ => true
  | .connectionError _ => true
  | .generic _ => false

/-- `create_with_retry`: `stop_after_attempt(2)`, `wait_fixed(2)`, retry only
on Timeout/ConnectionError, no `reraise`.  `att k` is the outcome of the
k-th attempt of the body (`post_item` followed by `get_item`). -/
def create_with_retry {β : Type} (att : ℕ → Except RawExc β) :
    RetryResult RawExc β × ℕ :=
  retryCall 2 RawExc.retryableCreate false att

/-- Exceptions flowing through `jama_update_item`. -/
inductive UExc
  | validationError (msg : String)
  | notFoundError (msg : String)
  | conflictError (msg : String)
  | serverError (msg : String)
  | timeout (msg : String)
  | connectionError (msg : String)
  | otherError (msg : String)
  deriving Repr, DecidableEq

/-- `retry_if_exception_type((ServerError, requests.exceptions.Timeout,
requests.exceptions.ConnectionError))` of the update retry decorator. -/
def UExc.retryable : UExc → Bool
  | .serverError _ => true
  | .timeout _ => true
  | .connectionError _ => true
  | _ => false

def conflictMsg (item_id : ℤ) : String :=
  s!"Item {item_id} was modified by another user. Please refresh and try again."

/-- The `except` handler inside `_update_with_retry`: 409/Conflict becomes
ConflictError, 500/503 becomes ServerError (for retry), anything else is
re-raised unchanged. -/
def remapUpdateError (item_id : ℤ) (e : RawExc) : UExc :=
  if strContains e.str "409" || strContains e.str "Conflict" then
    .conflictError (conflictMsg item_id)
  else if strContains e.str "500" || strContains e.str "503" then
    .serverError s!"Transient server error: {e.str}"
  else
    match e with
    | .timeout m => .timeout m
    | .connectionError m => .connectionError m
    | .generic m => .otherError m

/-- One attempt of the `_update_with_retry` body: `patch_item` with its
exceptions remapped. -/
def update_attempt (item_id : ℤ) (patchAtt : ℕ → Except RawExc Unit)
    (k : ℕ) : Except UExc Unit :=
  match patchAtt k with
  | .ok _ => .ok ()
  | .error e => .error (remapUpdateError item_id e)

/-- `_update_with_retry`: `stop_after_attempt(3)`, exponential wait, retry on
ServerError/Timeout/ConnectionError, `reraise=True`. -/
def update_with_retry (item_id : ℤ) (patchAtt : ℕ → Except RawExc Unit) :
    RetryResult UExc Unit × ℕ :=
  retryCall 3 UExc.retryable true (update_attempt item_id patchAtt)

/-- The item data read by the pre-update check of `jama_update_item`:
`lock.locked` and `currentVersion`. -/
structure ItemView where
  locked : Bool
  currentVersion : Option ℤ
  deriving Repr, DecidableEq

/-- Outcomes of the delegated calls made by `jama_update_item`. -/
structure UpdateEnv (β : Type) where
  getItemPre : Except String ItemView
  patchAttempts : ℕ → Except RawExc Unit
  getItemPost : Except String β

/-- A trivial update environment, used for concrete instantiations. -/
def uEnv0 : UpdateEnv ℕ :=
  { getItemPre := .ok ⟨false, none⟩
    patchAttempts := fun _ => .ok ()
    getItemPost := .ok 0 }

/-- `jama_update_item`: merge `fields` and keyword fields, require at least
one, fetch and lock-check the item, build the JSON Patch, patch with retry,
re-fetch.  The boolean records whether any JAMA API call was made. -/
def jama_update_item {V β : Type} (item_id : ℤ)
    (fields addl : List (String × V)) (env : UpdateEnv β) :
    Except UExc β × Bool :=
  let all_fields := fields ++ addl
  if all_fields.isEmpty then
    (.error (.validationError noFieldsMsg), false)
  else
    match env.getItemPre with
    | .error _ => (.error (.notFoundError s!"Item {item_id} not found"), true)
    | .ok item =>
      if item.locked then
        (.error (.validationError s!"Cannot update locked item {item_id}"), true)
      else
        match fields_to_json_patch all_fields with
        | .error m =>
          (.error (.validationError s!"Failed to generate JSON Patch operations: {m}"), true)
        | .ok _patches =>
          match (update_with_retry item_id env.patchAttempts).1 with
          | .ok _ =>
            match env.getItemPost with
            | .ok b => (.ok b, true)
            | .error m => (.error (.otherError m), true)
          | .raised e => (.error e, true)
          | .retryExhausted e => (.error e, true)

def duplicateNameMsg (name : String) (p : ℤ) : String :=
  s!"Item with name {name} already exists under parent {p}"

def invalidCustomFieldsMsg : String := "Invalid JSON in custom_fields"

/-- Outcomes of the delegated calls made by `jama_create_item`. -/
structure CreateEnv (β : Type) where
  /-- outcome of the `jama_get_item` call inside `validate_parent_exists`
  (`ok b` = returned a value of truthiness `b`). -/
  parentLookup : Except String Bool
  /-- outcome of the `get_item_children` call inside `check_duplicate_name`. -/
  childrenResult : Except String (List ChildEntry)
  /-- whether `json.loads(custom_fields)` succeeds. -/
  customFieldsValid : Bool
  /-- outcome of the k-th attempt of `create_with_retry`'s body. -/
  attempts : ℕ → Except RawExc β

/-- `jama_create_item`: validate the parent, check for a duplicate name,
parse the custom fields, then create with retry.  The boolean records
whether `post_item` was attempted. -/
def jama_create_item {β : Type} (parent : ℤ) (name : String)
    (env : CreateEnv β) : Except String β × Bool :=
  match validate_parent_exists parent env.parentLookup with
  | .error m => (.error m, false)
  | .ok _ =>
    if check_duplicate_name env.childrenResult name then
      (.error (duplicateNameMsg name parent), false)
    else if !env.customFieldsValid then
      (.error invalidCustomFieldsMsg, false)
    else
      match (create_with_retry env.attempts).1 with
      | .ok b => (.ok b, true)
      | .raised e => (.error e.str, true)
      | .retryExhausted e => (.error ("RetryError wrapping: " ++ e.str), true)

/-! ### tools/write_tools.py — batch tools

Each batch entry's processing (the nested `jama_create_item` /
`jama_update_item` call together with the spec-extraction checks preceding
it, all inside the per-entry `try`) is represented by its outcome, so a
batch input is a list of outcomes.  The source also stores the raw entry in
the error record; the embedding keeps the index and error text the claim is
about. -/

structure BatchCreateResult (β : Type) where
  total : ℕ
  succeeded : ℕ
  failed : ℕ
  created_items : List β
  errors : List (ℕ × String)
  deriving Repr, DecidableEq

structure BatchUpdateResult (β : Type) where
  total : ℕ
  succeeded : ℕ
  failed : ℕ
  updated_items : List β
  errors : List (ℕ × String)
  deriving Repr, DecidableEq

/-- The sequential abort-on-failure loop shared by both batch tools: returns
the successfully processed values, the first failure (index and error) if
any, and the number of entries attempted. -/
def batchLoop {β : Type} : ℕ → List (Except String β) →
    List β × Option (ℕ × String) × ℕ
  | _, [] => ([], none, 0)
  | i, o :: os =>
    match o with
    | .ok b =>
      let r := batchLoop (i + 1) os
      (b :: r.1, r.2.1, r.2.2 + 1)
    | .error e => ([], some (i, e), 1)

def batchSizeMsg (n : ℕ) : String :=
  s!"Batch size ({n}) exceeds maximum of 100 items. Please split into multiple batches."

/-- `jama_batch_create_items`: size check, then the sequential loop and the
result record.  The second component is the number of entries attempted. -/
def jama_batch_create_items {β : Type} (outcomes : List (Except String β)) :
    Except String (BatchCreateResult β) × ℕ :=
  if 100 < outcomes.length then
    (.error (batchSizeMsg outcomes.length), 0)
  else
    let r := batchLoop 0 outcomes
    (.ok { total := outcomes.length
           succeeded := r.1.length
           failed := if r.2.1.isSome then 1 else 0
           created_items := r.1
           errors := match r.2.1 with | some fe => [fe] | none => [] },
      r.2.2)

/-- `jama_batch_update_items`: identical loop, update-flavoured result. -/
def jama_batch_update_items {β : Type} (outcomes : List (Except String β)) :
    Except String (BatchUpdateResult β) × ℕ :=
  if 100 < outcomes.length then
    (.error (batchSizeMsg outcomes.length), 0)
  else
    let r := batchLoop 0 outcomes
    (.ok { total := outcomes.length
           succeeded := r.1.length
           failed := if r.2.1.isSome then 1 else 0
           updated_items := r.1
           errors := match r.2.1 with | some fe => [fe] | none => [] },
      r.2.2)

/-- The values of the maximal successful prefix of a batch (specification
device for stating the abort-on-failure theorem). -/
def leadingOks {β : Type} : List (Except String β) → List β
  | [] => []
  | .ok b :: os => b :: leadingOks os
  | .error _ :: _ => []

/-- The first failing entry of a batch, as index and error (specification
device for stating the abort-on-failure theorem). -/
def firstFailure {β : Type} : ℕ → List (Except String β) → Option (ℕ × String)
  | _, [] => none
  | i, .ok _ :: os => firstFailure (i + 1) os
  | i, .error e :: _ => some (i, e)

/-! ### models/attachment.py — attachment validators -/

/-- The 50 MB limit, in bytes. -/
def MAX_FILE_SIZE_BYTES : ℤ := 50 * 1024 * 1024

/-- `Attachment.validate_file_size`: reject a size above 50 MB, pass any
other value through unchanged. -/
def validate_file_size (v : Option ℤ) : Except String (Option ℤ) :=
  match v with
  | some n =>
    if MAX_FILE_SIZE_BYTES < n then
      .error s!"File size {n} bytes exceeds maximum of 50MB"
    else .ok (some n)
  | none => .ok none

/-- `AttachmentCreate.validate_filename`: reject an empty or whitespace-only
name (`not v or len(v.strip()) == 0`) and a name above 255 characters. -/
def validate_filename (v : String) : Except String String :=
  if v.data.all Char.isWhitespace then
    .error "Filename cannot be empty"
  else if 255 < v.length then
    .error s!"Filename too long (max 255 characters): {v}"
  else .ok v

structure Attachment where
  fileName : String
  fileSize : Option ℤ
  deriving Repr, DecidableEq

/-- Constructing an `Attachment`: pydantic runs `validate_file_size` on the
`fileSize` field. -/
def Attachment.construct (fileName : String) (fileSize : Option ℤ) :
    Except String Attachment :=
  match validate_file_size fileSize with
  | .error m => .error m
  | .ok fs => .ok ⟨fileName, fs⟩

structure AttachmentCreate where
  fileName : String
  deriving Repr, DecidableEq

/-- Constructing an `AttachmentCreate`: pydantic runs `validate_filename` on
the `fileName` field. -/
def AttachmentCreate.construct (fileName : String) :
    Except String AttachmentCreate :=
  match validate_filename fileName with
  | .error m => .error m
  | .ok n => .ok ⟨n⟩

/-! ## Lemmas and claim theorems -/

lemma RateLimiter.refillTokens_inv {s : RateLimiter} (hs : s.Inv)
    {e : ℚ} (he : 0 ≤ e) : (s.refillTokens e).Inv := by
  obtain ⟨h0, hc, hr⟩ := hs
  refine ⟨?_, ?_, hr⟩
  · have hrate : 0 ≤ s.rate := hr ▸ le_trans h0 hc
    have : 0 ≤ s.tokens + e * s.rate :=
      add_nonneg h0 (mul_nonneg he hrate)
    have hcap : (0:ℚ) ≤ s.capacity := le_trans h0 hc
    simpa [RateLimiter.refillTokens] using le_min hcap this
  · simp [RateLimiter.refillTokens]

lemma RateLimiter.acquireLoop_spec {n : ℕ} :
    ∀ (es : List ℚ) (s : RateLimiter), s.Inv → (∀ x ∈ es, 0 ≤ x) →
      ∀ s2, s.acquireLoop n es = some s2 →
        s2.Inv ∧ ∃ sr : RateLimiter, sr.Inv ∧ (n : ℚ) ≤ sr.tokens ∧
          sr.capacity = s.capacity ∧ s2.tokens = sr.tokens - (n : ℚ)
  | [], s, _, _, s2 => by simp [RateLimiter.acquireLoop]
  | e :: es, s, hs, hes, s2 => by
    intro h
    have he : 0 ≤ e := hes e (List.mem_cons_self e es)
    have h1 : (s.refillTokens e).Inv := RateLimiter.refillTokens_inv hs he
    by_cases hcase : (n : ℚ) ≤ (s.refillTokens e).tokens
    · have hs2 : s2 = { s.refillTokens e with
          tokens := (s.refillTokens e).tokens - (n : ℚ) } := by
        have := h
        simp only [RateLimiter.acquireLoop, hcase, if_pos, Option.some.injEq] at this
        exact this.symm
      subst hs2
      have hparts := h1
      obtain ⟨h0, hc, hr⟩ := hparts
      constructor
      · refine ⟨by simpa using sub_nonneg.mpr hcase, ?_, hr⟩
        have hn : (0:ℚ) ≤ (n : ℚ) := Nat.cast_nonneg n
        calc (s.refillTokens e).tokens - (n : ℚ)
            ≤ (s.refillTokens e).tokens := by linarith
          _ ≤ (s.refillTokens e).capacity := hc
      · exact ⟨s.refillTokens e, h1, hcase, rfl, rfl⟩
    · have h2 : (s.refillTokens e).acquireLoop n es = some s2 := by
        have := h
        simp only [RateLimiter.acquireLoop, hcase, if_neg, not_false_iff] at this
        exact this
      have hes2 : ∀ x ∈ es, 0 ≤ x := fun x hx => hes x (List.mem_cons_of_mem e hx)
      obtain ⟨hinv, sr, hsr, hle, hcap, htok⟩ :=
        RateLimiter.acquireLoop_spec es (s.refillTokens e) h1 hes2 s2 h2
      exact ⟨hinv, sr, hsr, hle, by rw [hcap]; rfl, htok⟩

/-- C1: for every `RateLimiter` built with `requests_per_second = r > 0`, the
bucket invariant `0 ≤ tokens ≤ capacity = rate` holds initially and is
preserved by `_refill_tokens`, `try_acquire` and `acquire`; `try_acquire n`
succeeds exactly when the refilled bucket holds at least `n` tokens, in which
case it removes exactly `n` tokens, and otherwise leaves the tokens as
refilled; `acquire n` returns only from a state (reached by refilling) that
held at least `n` tokens, with exactly `n` tokens removed. -/
theorem rateLimiter_bucket_invariant
    (r : ℚ) (hr : 0 < r)
    (s : RateLimiter) (hs : s.Inv)
    (e : ℚ) (he : 0 ≤ e) (n : ℕ)
    (es : List ℚ) (hes : ∀ x ∈ es, 0 ≤ x) :
    (RateLimiter.init r).Inv
    ∧ (s.refillTokens e).Inv
    ∧ (s.tryAcquire e n).1.Inv
    ∧ ((s.tryAcquire e n).2 = true ↔ (n : ℚ) ≤ (s.refillTokens e).tokens)
    ∧ ((s.tryAcquire e n).2 = true →
        (s.tryAcquire e n).1.tokens = (s.refillTokens e).tokens - (n : ℚ))
    ∧ ((s.tryAcquire e n).2 = false →
        (s.tryAcquire e n).1.tokens = (s.refillTokens e).tokens)
    ∧ (∀ s2, s.acquireLoop n es = some s2 →
        s2.Inv ∧ ∃ sr : RateLimiter, sr.Inv ∧ (n : ℚ) ≤ sr.tokens ∧
          sr.capacity = s.capacity ∧ s2.tokens = sr.tokens - (n : ℚ)) := by
  have hinit : (RateLimiter.init r).Inv :=
    ⟨le_of_lt hr, le_refl r, rfl⟩
  have hrefill := RateLimiter.refillTokens_inv hs he
  refine ⟨hinit, hrefill, ?_, ?_, ?_, ?_, ?_⟩
  · by_cases hcase : (n : ℚ) ≤ (s.refillTokens e).tokens
    · obtain ⟨h0, hc, hrr⟩ := hrefill
      simp only [RateLimiter.tryAcquire, hcase, if_pos]
      refine ⟨by simpa using sub_nonneg.mpr hcase, ?_, hrr⟩
      have hn : (0:ℚ) ≤ (n : ℚ) := Nat.cast_nonneg n
      calc (s.refillTokens e).tokens - (n : ℚ)
          ≤ (s.refillTokens e).tokens := by linarith
        _ ≤ (s.refillTokens e).capacity := hc
    · simpa [RateLimiter.tryAcquire, hcase] using hrefill
  · by_cases hcase : (n : ℚ) ≤ (s.refillTokens e).tokens <;>
      simp [RateLimiter.tryAcquire, hcase]
  · intro ht
    by_cases hcase : (n : ℚ) ≤ (s.refillTokens e).tokens
    · simp [RateLimiter.tryAcquire, hcase]
    · simp [RateLimiter.tryAcquire, hcase] at ht
  · intro ht
    by_cases hcase : (n : ℚ) ≤ (s.refillTokens e).tokens
    · simp [RateLimiter.tryAcquire, hcase] at ht
    · simp [RateLimiter.tryAcquire, hcase]
  · intro s2 h
    exact RateLimiter.acquireLoop_spec es s hs hes s2 h

/-- Concrete instantiation of the rate limiter theorem. -/
theorem rateLimiter_bucket_invariant_witness :
    (RateLimiter.init 1).Inv
    ∧ ((RateLimiter.init 1).refillTokens 0).Inv := by
  have h := rateLimiter_bucket_invariant 1 (by norm_num)
    (RateLimiter.init 1)
    ⟨by norm_num [RateLimiter.init], by norm_num [RateLimiter.init], rfl⟩
    0 (by norm_num) 1 [1] (by intro x hx; simp at hx; simp [hx])
  exact ⟨h.1, h.2.1⟩

/-- C5: `handle_http_error` maps 400 to ValidationError, 401 to
AuthenticationError, 403 to PermissionError, 404 to NotFoundError, 409 to
ConflictError, 429 to RateLimitError, every status in [500, 600) to
ServerError and every other status to the base JamaError, and in every case
the returned details record the status code and the response text. -/
theorem handle_http_error_taxonomy (status : ℕ) (text : String) :
    ((handle_http_error status text).statusCode = status
      ∧ (handle_http_error status text).response = text)
    ∧ (status = 400 → (handle_http_error status text).kind = .validation)
    ∧ (status = 401 → (handle_http_error status text).kind = .authentication)
    ∧ (status = 403 → (handle_http_error status text).kind = .permission)
    ∧ (status = 404 → (handle_http_error status text).kind = .notFound)
    ∧ (status = 409 → (handle_http_error status text).kind = .conflict)
    ∧ (status = 429 → (handle_http_error status text).kind = .rateLimit)
    ∧ (500 ≤ status → status < 600 →
        (handle_http_error status text).kind = .server)
    ∧ (status ∉ ([400, 401, 403, 404, 409, 429] : List ℕ) →
        ¬(500 ≤ status ∧ status < 600) →
        (handle_http_error status text).kind = .base) := by
  unfold handle_http_error
  refine ⟨?_, ?_, ?_, ?_, ?_, ?_, ?_, ?_, ?_⟩
  · constructor <;> (split_ifs <;> rfl)
  all_goals intros; split_ifs <;> simp_all

/-- C8: constructing an `Attachment` with a `fileSize` above 50 MB
(50 * 1024 * 1024 bytes) raises ValueError while any smaller or absent size
is accepted unchanged, and constructing an `AttachmentCreate` with an empty
or whitespace-only `fileName`, or a `fileName` longer than 255 characters,
raises ValueError. -/
theorem attachment_model_validation
    (n : ℤ) (hn : MAX_FILE_SIZE_BYTES < n)
    (m : ℤ) (hm : m ≤ MAX_FILE_SIZE_BYTES)
    (fn fn2 : String) (hfn : fn.data.all Char.isWhitespace = true)
    (hfn2a : fn2.data.all Char.isWhitespace = false) (hfn2b : 255 < fn2.length) :
    (∃ msg, Attachment.construct "f" (some n) = .error msg)
    ∧ Attachment.construct "f" (some m) = .ok ⟨"f", some m⟩
    ∧ Attachment.construct "f" none = .ok ⟨"f", none⟩
    ∧ (∃ msg, AttachmentCreate.construct fn = .error msg)
    ∧ (∃ msg, AttachmentCreate.construct fn2 = .error msg) := by
  refine ⟨?_, ?_, rfl, ?_, ?_⟩
  · refine ⟨s!"File size {n} bytes exceeds maximum of 50MB", ?_⟩
    simp [Attachment.construct, validate_file_size, hn]
  · simp [Attachment.construct, validate_file_size, not_lt.mpr hm]
  · refine ⟨"Filename cannot be empty", ?_⟩
    simp [AttachmentCreate.construct, validate_filename, hfn]
  · refine ⟨s!"Filename too long (max 255 characters): {fn2}", ?_⟩
    simp [AttachmentCreate.construct, validate_filename, hfn2a, hfn2b]

set_option maxRecDepth 10000 in
/-- Concrete instantiation of the attachment validation theorem. -/
theorem attachment_model_validation_witness :
    (∃ msg, Attachment.construct "f" (some 52428801) = .error msg)
    ∧ Attachment.construct "f" (some 0) = .ok ⟨"f", some 0⟩
    ∧ Attachment.construct "f" none = .ok ⟨"f", none⟩
    ∧ (∃ msg, AttachmentCreate.construct " " = .error msg)
    ∧ (∃ msg,
        AttachmentCreate.construct (String.mk (List.replicate 256 'x')) = .error msg) :=
  attachment_model_validation 52428801 (by norm_num [MAX_FILE_SIZE_BYTES])
    0 (by norm_num [MAX_FILE_SIZE_BYTES]) " " (String.mk (List.replicate 256 'x'))
    (by decide) (by decide) (by decide)

/-- C10: `check_duplicate_name` returns False whenever fetching the parent's
children raises any exception, and returns True exactly when some child of
the parent is a dict whose truthy `fields.name` equals the requested name. -/
theorem check_duplicate_name_spec (e : String) (nm : String)
    (cs : List ChildEntry) :
    check_duplicate_name (.error e) nm = false
    ∧ (check_duplicate_name (.ok cs) nm = true ↔
        nm ≠ "" ∧ ChildEntry.dict (some nm) ∈ cs) := by
  constructor
  · rfl
  · simp only [check_duplicate_name, List.any_eq_true, beq_iff_eq]
    constructor
    · rintro ⟨c, hc, hcn⟩
      match c with
      | .notDict => simp [childName] at hcn
      | .dict none => simp [childName] at hcn
      | .dict (some x) =>
        by_cases hx : x = "" <;> simp [childName, hx] at hcn
        subst hcn
        exact ⟨hx, hc⟩
    · rintro ⟨hne, hmem⟩
      exact ⟨_, hmem, by simp [childName, hne]⟩

lemma startsWithSlash_fields (k : String) :
    startsWithSlash ("/fields/" ++ k) = true := by
  obtain ⟨l⟩ := k
  rfl

lemma validatePatchList_fields {V : Type} (i : ℕ) (fields : List (String × V)) :
    validatePatchList i (fields.map fun fv => mkFieldPatch fv.1 fv.2) = .ok true := by
  induction fields generalizing i with
  | nil => rfl
  | cons f fs ih =>
    simp [validatePatchList, mkFieldPatch, requiredOps, startsWithSlash_fields]
    simpa [mkFieldPatch] using ih (i + 1)

/-- C7: for every non-empty fields dictionary, `fields_to_json_patch` returns
exactly one JSON Patch operation per field, each with path
`/fields/<field name>` and that field's value, and the resulting list passes
`validate_json_patch`; for an empty dictionary it raises ValueError, and
`jama_update_item` correspondingly raises ValidationError before making any
API call when given no fields to update. -/
theorem fields_to_json_patch_spec {V β : Type}
    (fields : List (String × V)) (hne : fields ≠ [])
    (item_id : ℤ) (env : UpdateEnv β) :
    fields_to_json_patch fields =
      .ok (fields.map fun fv => mkFieldPatch fv.1 fv.2)
    ∧ (fields.map fun fv => mkFieldPatch fv.1 fv.2).length = fields.length
    ∧ (∀ fv ∈ fields, mkFieldPatch fv.1 fv.2 =
        { op := some "add", path := some ("/fields/" ++ fv.1), value := some fv.2 })
    ∧ validate_json_patch (fields.map fun fv => mkFieldPatch fv.1 fv.2) = .ok true
    ∧ fields_to_json_patch (V := V) [] = .error noFieldsMsg
    ∧ jama_update_item item_id ([] : List (String × V)) [] env =
        (.error (.validationError noFieldsMsg), false) := by
  have hempty : fields.isEmpty = false := by
    cases fields with
    | nil => exact absurd rfl hne
    | cons a l => rfl
  refine ⟨?_, by simp, fun fv _ => rfl, ?_, rfl, rfl⟩
  · simp [fields_to_json_patch, hempty]
  · have hempty2 : (fields.map fun fv => mkFieldPatch fv.1 fv.2).isEmpty = false := by
      cases fields with
      | nil => exact absurd rfl hne
      | cons a l => rfl
    simp only [validate_json_patch, hempty2, Bool.false_eq_true, if_false]
    exact validatePatchList_fields 0 fields

/-- Concrete instantiation of the JSON patch theorem. -/
theorem fields_to_json_patch_spec_witness :
    fields_to_json_patch [("name", (0 : ℕ))] =
      .ok ([("name", (0 : ℕ))].map fun fv => mkFieldPatch fv.1 fv.2)
    ∧ validate_json_patch ([("name", (0 : ℕ))].map fun fv => mkFieldPatch fv.1 fv.2) =
      .ok true
    ∧ jama_update_item (β := ℕ) 1 ([] : List (String × ℕ)) [] uEnv0 =
        (.error (.validationError noFieldsMsg), false) := by
  have h := fields_to_json_patch_spec (β := ℕ) [("name", (0 : ℕ))]
    (by simp) 1 uEnv0
  exact ⟨h.1, h.2.2.2.1, h.2.2.2.2.2⟩

/-- C9: an input list of more than 100 entries makes both batch tools raise
ValueError before processing any entry, with zero entries attempted. -/
theorem batch_size_limit {β : Type} (outcomes : List (Except String β))
    (h : 100 < outcomes.length) :
    jama_batch_create_items outcomes =
      (.error (batchSizeMsg outcomes.length), 0)
    ∧ jama_batch_update_items outcomes =
      (.error (batchSizeMsg outcomes.length), 0) := by
  constructor <;> simp [jama_batch_create_items, jama_batch_update_items, h]

lemma batchLoop_eq {β : Type} :
    ∀ (os : List (Except String β)) (i : ℕ),
      batchLoop i os =
        (leadingOks os, firstFailure i os,
          match firstFailure i os with
          | none => os.length
          | some _ => (leadingOks os).length + 1) := by
  intro os
  induction os with
  | nil => intro i; rfl
  | cons o os ih =>
    intro i
    cases o with
    | ok b =>
      have h := ih (i + 1)
      simp only [batchLoop, leadingOks, firstFailure, h, List.length_cons]
      cases hff : firstFailure (i + 1) os <;> simp [hff]
    | error e0 => rfl

lemma firstFailure_none_iff {β : Type} :
    ∀ (os : List (Except String β)) (i : ℕ),
      firstFailure i os = none ↔ ∀ o ∈ os, ∃ b, o = .ok b := by
  intro os
  induction os with
  | nil => intro i; simp [firstFailure]
  | cons o os ih =>
    intro i
    cases o with
    | ok b => simp [firstFailure, ih (i + 1)]
    | error e0 => simp [firstFailure]

lemma firstFailure_some_iff {β : Type} :
    ∀ (os : List (Except String β)) (i j : ℕ) (e : String),
      firstFailure i os = some (j, e) ↔
        j = i + (leadingOks os).length
        ∧ os.get? (leadingOks os).length = some (.error e) := by
  intro os
  induction os with
  | nil => intro i j e; simp [firstFailure, leadingOks]
  | cons o os ih =>
    intro i j e
    cases o with
    | ok b =>
      have h := ih (i + 1) j e
      simp only [firstFailure, leadingOks, List.length_cons, List.get?] at h ⊢
      rw [h]
      constructor <;> (rintro ⟨h1, h2⟩; exact ⟨by omega, h2⟩)
    | error e0 =>
      simp only [firstFailure, leadingOks, List.length_nil, List.get?]
      constructor
      · rintro h
        injection h with h
        injection h with h1 h2
        subst h1; subst h2
        simp
      · rintro ⟨h1, h2⟩
        injection h2 with h2
        injection h2 with h2
        subst h1; subst h2
        simp

/-- C3: both batch tools process their input strictly sequentially and abort
on the first failing entry: the result has `total = n`, `succeeded` the
number of entries preceding the first failure (which are kept, not rolled
back), `failed` 1 if some entry failed else 0, `errors` exactly the failing
index and error, and the number of attempted entries stops right after the
first failure, so no later entry is ever attempted. -/
theorem batch_sequential_abort {β : Type} (outcomes : List (Except String β))
    (h : outcomes.length ≤ 100) :
    jama_batch_create_items outcomes =
      (.ok { total := outcomes.length
             succeeded := (leadingOks outcomes).length
             failed := if (firstFailure 0 outcomes).isSome then 1 else 0
             created_items := leadingOks outcomes
             errors := match firstFailure 0 outcomes with
               | some fe => [fe] | none => [] },
        match firstFailure 0 outcomes with
        | none => outcomes.length
        | some _ => (leadingOks outcomes).length + 1)
    ∧ jama_batch_update_items outcomes =
      (.ok { total := outcomes.length
             succeeded := (leadingOks outcomes).length
             failed := if (firstFailure 0 outcomes).isSome then 1 else 0
             updated_items := leadingOks outcomes
             errors := match firstFailure 0 outcomes with
               | some fe => [fe] | none => [] },
        match firstFailure 0 outcomes with
        | none => outcomes.length
        | some _ => (leadingOks outcomes).length + 1)
    ∧ (∀ i e, firstFailure 0 outcomes = some (i, e) ↔
        i = (leadingOks outcomes).length
        ∧ outcomes.get? (leadingOks outcomes).length = some (.error e))
    ∧ (firstFailure 0 outcomes = none ↔ ∀ o ∈ outcomes, ∃ b, o = .ok b) := by
  have hnot : ¬ 100 < outcomes.length := not_lt.mpr h
  have hloop := batchLoop_eq outcomes 0
  refine ⟨?_, ?_, ?_, firstFailure_none_iff outcomes 0⟩
  · simp only [jama_batch_create_items, hnot, if_false, hloop]
  · simp only [jama_batch_update_items, hnot, if_false, hloop]
  · intro i e
    simpa using firstFailure_some_iff outcomes 0 i e

/-- Concrete instantiation of the batch abort theorem. -/
theorem batch_sequential_abort_witness :
    jama_batch_create_items [Except.ok (1 : ℕ), Except.error "boom", Except.ok 2]
      = (.ok ⟨3, 1, 1, [1], [(1, "boom")]⟩, 2)
    ∧ jama_batch_update_items [Except.ok (1 : ℕ), Except.error "boom", Except.ok 2]
      = (.ok ⟨3, 1, 1, [1], [(1, "boom")]⟩, 2) := by
  have h := batch_sequential_abort (β := ℕ) [.ok 1, .error "boom", .ok 2] (by simp)
  exact ⟨by simpa [leadingOks, firstFailure] using h.1,
    by simpa [leadingOks, firstFailure] using h.2.1⟩

/-- Concrete instantiation of the batch size limit theorem. -/
theorem batch_size_limit_witness :
    jama_batch_create_items (List.replicate 101 (Except.ok (0 : ℕ))) =
      (.error (batchSizeMsg 101), 0)
    ∧ jama_batch_update_items (List.replicate 101 (Except.ok (0 : ℕ))) =
      (.error (batchSizeMsg 101), 0) := by
  have h := batch_size_limit (β := ℕ) (List.replicate 101 (Except.ok 0)) (by simp)
  simpa using h

lemma make_request_stateAtCall {β : Type} (s : ClientState) (now : ℚ)
    (refreshOk hasTokenAttr : Bool) (call : Except String β) :
    (make_request s now refreshOk hasTokenAttr call).stateAtCall =
      (ensureValidToken s now refreshOk hasTokenAttr).toOption := by
  unfold make_request
  cases ensureValidToken s now refreshOk hasTokenAttr with
  | error m => rfl
  | ok s1 =>
    cases call with
    | ok b => rfl
    | error msg => cases h : remapRequestError msg <;> simp [h, Except.toOption]

/-- C2: before every delegated call, `_make_request` re-validates the OAuth
token: when OAuth is enabled and the recorded expiry is less than 5 minutes
away, the client is re-created and the expiry reset to one hour from now
before the wrapped method is invoked; if the refresh fails,
AuthenticationError is raised and the request is never issued; hence no
request is ever issued while the tracked token is within 5 minutes of
expiry. -/
theorem make_request_token_refresh {β : Type}
    (s : ClientState) (hoauth : s.oauth = true)
    (ex : ℚ) (hex : s.tokenExpiry = some ex)
    (now : ℚ) (refreshOk hasTokenAttr : Bool) (call : Except String β) :
    (ex - now < TOKEN_REFRESH_THRESHOLD → refreshOk = false →
      (make_request s now refreshOk hasTokenAttr call).outcome =
          .authErr "Failed to refresh OAuth token"
        ∧ (make_request s now refreshOk hasTokenAttr call).stateAtCall = none)
    ∧ (ex - now < TOKEN_REFRESH_THRESHOLD → refreshOk = true → hasTokenAttr = true →
        (make_request s now refreshOk hasTokenAttr call).stateAtCall =
          some { s with tokenExpiry := some (now + tokenValiditySeconds) })
    ∧ (∀ s1, (make_request s now refreshOk hasTokenAttr call).stateAtCall = some s1 →
        ∀ e2, s1.tokenExpiry = some e2 → TOKEN_REFRESH_THRESHOLD ≤ e2 - now) := by
  refine ⟨?_, ?_, ?_⟩
  · intro hlt hrf
    subst hrf
    have hev : ensureValidToken s now false hasTokenAttr =
        .error "Failed to refresh OAuth token" := by
      simp [ensureValidToken, hoauth, hex, hlt]
    constructor
    · simp [make_request, hev]
    · simp [make_request_stateAtCall, hev, Except.toOption]
  · intro hlt hrf hattr
    subst hrf; subst hattr
    have hev : ensureValidToken s now true true =
        .ok { s with tokenExpiry := some (now + tokenValiditySeconds) } := by
      simp [ensureValidToken, updateTokenExpiry, hoauth, hex, hlt]
    simp [make_request_stateAtCall, hev, Except.toOption]
  · intro s1 hs1 e2 he2
    rw [make_request_stateAtCall] at hs1
    have hev : ensureValidToken s now refreshOk hasTokenAttr = .ok s1 := by
      cases hcase : ensureValidToken s now refreshOk hasTokenAttr with
      | error m => rw [hcase] at hs1; simp [Except.toOption] at hs1
      | ok a =>
        rw [hcase] at hs1
        simp [Except.toOption] at hs1
        rw [hs1]
    by_cases hlt : ex - now < TOKEN_REFRESH_THRESHOLD
    · cases refreshOk with
      | false => simp [ensureValidToken, hoauth, hex, hlt] at hev
      | true =>
        have hs1eq : s1 = updateTokenExpiry s now hasTokenAttr := by
          have := hev
          simp [ensureValidToken, hoauth, hex, hlt] at this
          exact this.symm
        subst hs1eq
        cases hattr : hasTokenAttr with
        | false =>
          rw [hattr] at he2
          simp [updateTokenExpiry] at he2
        | true =>
          rw [hattr] at he2
          simp [updateTokenExpiry, hoauth] at he2
          subst he2
          norm_num [TOKEN_REFRESH_THRESHOLD, tokenValiditySeconds]
    · have hs1eq : s1 = s := by
        have := hev
        simp [ensureValidToken, hoauth, hex, hlt] at this
        exact this.symm
      subst hs1eq
      rw [hex] at he2
      injection he2 with he2
      subst he2
      linarith [not_lt.mp hlt]

/-- Concrete instantiation of the token refresh theorem. -/
theorem make_request_token_refresh_witness :
    (make_request ⟨true, some 100⟩ 0 true true (Except.ok (0 : ℕ))).stateAtCall =
      some ⟨true, some 3600⟩
    ∧ (make_request ⟨true, some 100⟩ 0 false true (Except.ok (0 : ℕ))).stateAtCall =
      none := by
  constructor
  · have h := make_request_token_refresh (β := ℕ) ⟨true, some 100⟩ rfl 100 rfl
      0 true true (.ok 0)
    have h2 := h.2.1 (by norm_num [TOKEN_REFRESH_THRESHOLD]) rfl rfl
    simpa [tokenValiditySeconds] using h2
  · have h := make_request_token_refresh (β := ℕ) ⟨true, some 100⟩ rfl 100 rfl
      0 false true (.ok 0)
    exact (h.1 (by norm_num [TOKEN_REFRESH_THRESHOLD]) rfl).2

/-- C4: `jama_create_item` validates before creating: a missing or
inaccessible parent raises ValueError naming the parent, a duplicate child
name under that parent raises ValueError, and on either validation failure
`post_item` is never called. -/
theorem jama_create_item_validation_first {β : Type}
    (parent : ℤ) (name : String) (env : CreateEnv β) :
    (env.parentLookup = .ok false →
      jama_create_item parent name env = (.error (parentNotFoundMsg parent), false))
    ∧ (∀ e, env.parentLookup = .error e →
        (jama_create_item parent name env).2 = false
        ∧ ((jama_create_item parent name env).1 = .error (parentNotFoundMsg parent)
          ∨ (jama_create_item parent name env).1 = .error (parentPermissionMsg parent)
          ∨ (jama_create_item parent name env).1 = .error (parentUnableMsg parent e)))
    ∧ (env.parentLookup = .ok true →
        check_duplicate_name env.childrenResult name = true →
        jama_create_item parent name env =
          (.error (duplicateNameMsg name parent), false)) := by
  refine ⟨?_, ?_, ?_⟩
  · intro hpl
    simp [jama_create_item, validate_parent_exists, hpl]
  · intro e hpl
    constructor
    · simp [jama_create_item, validate_parent_exists, hpl]
    · simp only [jama_create_item, validate_parent_exists, hpl]
      unfold mapParentError
      split_ifs <;> simp
  · intro hpl hdup
    simp [jama_create_item, validate_parent_exists, hpl, hdup]

/-- Concrete instantiation of the create validation theorem. -/
theorem jama_create_item_validation_first_witness :
    jama_create_item (β := ℕ) 7 "X"
        ⟨.ok false, .ok [], true, fun _ => .ok 0⟩ =
      (.error (parentNotFoundMsg 7), false)
    ∧ jama_create_item (β := ℕ) 7 "X"
        ⟨.ok true, .ok [.dict (some "X")], true, fun _ => .ok 0⟩ =
      (.error (duplicateNameMsg "X" 7), false) := by
  constructor
  · exact (jama_create_item_validation_first 7 "X"
      ⟨.ok false, .ok [], true, fun _ => .ok 0⟩).1 rfl
  · exact (jama_create_item_validation_first 7 "X"
      ⟨.ok true, .ok [.dict (some "X")], true, fun _ => .ok 0⟩).2.2 rfl (by rfl)

lemma retryGo_count_le {ε β : Type} (retryable : ε → Bool) (reraise : Bool)
    (att : ℕ → Except ε β) :
    ∀ (rem k : ℕ), (retryGo retryable reraise att k rem).2 ≤ k + rem + 1 := by
  intro rem
  induction rem with
  | zero =>
    intro k
    unfold retryGo
    cases att k with
    | ok b => simp
    | error e =>
      cases reraise <;> cases hr : retryable e <;> simp [hr]
  | succ r ih =>
    intro k
    unfold retryGo
    cases att k with
    | ok b => simp
    | error e =>
      cases hr : retryable e with
      | true =>
        simp only [hr, if_true]
        have := ih (k + 1)
        omega
      | false => simp [hr]

/-- C6 (amended): `jama_create_item` retries the create call at most once
after a fixed 2-second wait (two attempts total) and only on Timeout or
ConnectionError; after the second transient failure it raises tenacity's
RetryError wrapping the last exception (its decorator has no `reraise=True`)
rather than re-raising the original.  `jama_update_item` retries the patch
call only on ServerError, Timeout or ConnectionError, up to 3 attempts total
with exponential backoff, then re-raises the last exception.  Non-transient
errors (validation, not-found, conflict) are never retried. -/
theorem retry_policies_bounded {β : Type}
    (att : ℕ → Except RawExc β) (item_id : ℤ)
    (patt : ℕ → Except RawExc Unit) (m : String) :
    (create_with_retry att).2 ≤ 2
    ∧ (∀ b, att 0 = .ok b → create_with_retry att = (.ok b, 1))
    ∧ (∀ e, att 0 = .error e → RawExc.retryableCreate e = false →
        create_with_retry att = (.raised e, 1))
    ∧ (∀ e0 e1, att 0 = .error e0 → att 1 = .error e1 →
        RawExc.retryableCreate e0 = true → RawExc.retryableCreate e1 = true →
        create_with_retry att = (.retryExhausted e1, 2))
    ∧ (RawExc.retryableCreate (.timeout m) = true
        ∧ RawExc.retryableCreate (.connectionError m) = true
        ∧ RawExc.retryableCreate (.generic m) = false)
    ∧ create_wait_seconds = 2
    ∧ (update_with_retry item_id patt).2 ≤ 3
    ∧ (∀ e, update_attempt item_id patt 0 = .error e → UExc.retryable e = false →
        update_with_retry item_id patt = (.raised e, 1))
    ∧ (∀ e0 e1 e2,
        update_attempt item_id patt 0 = .error e0 →
        update_attempt item_id patt 1 = .error e1 →
        update_attempt item_id patt 2 = .error e2 →
        UExc.retryable e0 = true → UExc.retryable e1 = true →
        UExc.retryable e2 = true →
        update_with_retry item_id patt = (.raised e2, 3))
    ∧ (UExc.retryable (.validationError m) = false
        ∧ UExc.retryable (.notFoundError m) = false
        ∧ UExc.retryable (.conflictError m) = false
        ∧ UExc.retryable (.serverError m) = true
        ∧ UExc.retryable (.timeout m) = true
        ∧ UExc.retryable (.connectionError m) = true)
    ∧ (update_wait_seconds 1 = 1 ∧ update_wait_seconds 2 = 2
        ∧ update_wait_seconds 3 = 4 ∧ update_wait_seconds 9 = 10) := by
  refine ⟨?_, ?_, ?_, ?_, ⟨rfl, rfl, rfl⟩, rfl, ?_, ?_, ?_,
    ⟨rfl, rfl, rfl, rfl, rfl, rfl⟩, ?_⟩
  · simpa [create_with_retry, retryCall] using
      retryGo_count_le RawExc.retryableCreate false att 1 0
  · intro b h
    simp [create_with_retry, retryCall, retryGo, h]
  · intro e h hr
    simp [create_with_retry, retryCall, retryGo, h, hr]
  · intro e0 e1 h0 h1 hr0 hr1
    simp [create_with_retry, retryCall, retryGo, h0, h1, hr0, hr1]
  · simpa [update_with_retry, retryCall] using
      retryGo_count_le UExc.retryable true (update_attempt item_id patt) 2 0
  · intro e h hr
    simp [update_with_retry, retryCall, retryGo, h, hr]
  · intro e0 e1 e2 h0 h1 h2 hr0 hr1 hr2
    simp [update_with_retry, retryCall, retryGo, h0, h1, h2, hr0, hr1, hr2]
  · refine ⟨?_, ?_, ?_, ?_⟩ <;> norm_num [update_wait_seconds]

/-- C6 counterexample: the create retry decorator has no `reraise=True`, so
after both attempts time out the call ends in tenacity's RetryError wrapping
the timeout instead of re-raising the original Timeout. -/
theorem create_retry_no_reraise_counterexample :
    create_with_retry (β := ℕ) (fun _ => .error (RawExc.timeout "request timed out"))
      = (.retryExhausted (RawExc.timeout "request timed out"), 2)
    ∧ (RetryResult.retryExhausted (RawExc.timeout "request timed out")
        : RetryResult RawExc ℕ)
      ≠ .raised (RawExc.timeout "request timed out") := by
  constructor
  · rfl
  · simp

/-- Concrete instantiation of the retry policy theorem. -/
theorem retry_policies_bounded_witness :
    create_with_retry (β := ℕ) (fun _ => .error (RawExc.generic "HTTP 400")) =
      (.raised (RawExc.generic "HTTP 400"), 1) := by
  have h := retry_policies_bounded (β := ℕ)
    (fun _ => .error (RawExc.generic "HTTP 400")) 1 (fun _ => .ok ()) "m"
  exact h.2.2.1 _ rfl rfl

/-- Concrete instantiation of the HTTP error taxonomy theorem. -/
theorem handle_http_error_taxonomy_witness :
    (handle_http_error 404 "missing").kind = ErrorKind.notFound
    ∧ (handle_http_error 404 "missing").statusCode = 404
    ∧ (handle_http_error 404 "missing").response = "missing" := by
  have h := handle_http_error_taxonomy 404 "missing"
  exact ⟨h.2.2.2.2.1 rfl, h.1.1, h.1.2⟩

end JamaMCP
